import Mathlib

/-!
Shallow embedding of the key-management crypto engine
(`backend/utils/crypto.py`, `backend/utils/rotation.py`,
`backend/utils/audit.py`, `backend/routers/keys.py`,
`backend/routers/encrypt.py`) together with theorems settling the
specification claims about it.

Bytes are modelled as `List Nat` (each element a byte value).  Python
strings are modelled as Lean `String`; `str.encode('utf-8')` /
`bytes.decode('utf-8')` are modelled by a concrete executable UTF-8
codec defined below.  Calls into the third-party `cryptography` library
(AES-GCM, AES-CBC, ChaCha20-Poly1305, RSA-OAEP, HMAC, ECDSA, Ed25519,
base64) are modelled as an explicit bundle of abstract primitive
functions (`Prims`); the properties of those primitives that a theorem
relies on (e.g. that GCM decryption inverts GCM encryption, or that an
HMAC-SHA256 digest is 32 bytes long) appear as explicit hypotheses, and
a concrete toy instantiation (`toyPrims`) witnesses that the hypotheses
are satisfiable.  Randomness drawn inside the source
(`secrets.token_bytes`) is passed in as an explicit argument.
-/

namespace KMS

/-! ### UTF-8 codec

Models Python `str.encode('utf-8')` and strict `bytes.decode('utf-8')`.
The decoder rejects what CPython's strict decoder rejects: continuation
errors, overlong encodings, surrogate code points, values above
`0x10FFFF`, and lead bytes `0xC0/0xC1/0xF5-0xFF`. -/
def utf8EncodeChar (c : Char) : List Nat :=
  if c.toNat < 0x80 then [c.toNat]
  else if c.toNat < 0x800 then [0xC0 + c.toNat / 64, 0x80 + c.toNat % 64]
  else if c.toNat < 0x10000 then
    [0xE0 + c.toNat / 4096, 0x80 + c.toNat / 64 % 64, 0x80 + c.toNat % 64]
  else
    [0xF0 + c.toNat / 262144, 0x80 + c.toNat / 4096 % 64,
      0x80 + c.toNat / 64 % 64, 0x80 + c.toNat % 64]

def utf8EncodeList : List Char → List Nat
  | [] => []
  | c :: cs => utf8EncodeChar c ++ utf8EncodeList cs

/-- Model of Python `s.encode('utf-8')`. -/
def strToBytes (s : String) : List Nat := utf8EncodeList s.data

def utf8DecodeOne (b0 : Nat) (t : List Nat) : Option (Nat × List Nat) :=
  if b0 < 0x80 then some (b0, t)
  else if b0 < 0xC2 then none
  else if b0 < 0xE0 then
    match t with
    | b1 :: t1 =>
      if 0x80 ≤ b1 ∧ b1 < 0xC0 then some ((b0 - 0xC0) * 64 + (b1 - 0x80), t1) else none
    | [] => none
  else if b0 < 0xF0 then
    match t with
    | b1 :: b2 :: t2 =>
      if (0x80 ≤ b1 ∧ b1 < 0xC0) ∧ (0x80 ≤ b2 ∧ b2 < 0xC0) then
        if 0x800 ≤ (b0 - 0xE0) * 4096 + (b1 - 0x80) * 64 + (b2 - 0x80) ∧
            ((b0 - 0xE0) * 4096 + (b1 - 0x80) * 64 + (b2 - 0x80) < 0xD800 ∨
              0xDFFF < (b0 - 0xE0) * 4096 + (b1 - 0x80) * 64 + (b2 - 0x80)) then
          some ((b0 - 0xE0) * 4096 + (b1 - 0x80) * 64 + (b2 - 0x80), t2)
        else none
      else none
    | _ => none
  else if b0 < 0xF5 then
    match t with
    | b1 :: b2 :: b3 :: t3 =>
      if (0x80 ≤ b1 ∧ b1 < 0xC0) ∧ (0x80 ≤ b2 ∧ b2 < 0xC0) ∧ (0x80 ≤ b3 ∧ b3 < 0xC0) then
        if 0x10000 ≤ (b0 - 0xF0) * 262144 + (b1 - 0x80) * 4096 + (b2 - 0x80) * 64 + (b3 - 0x80) ∧
            (b0 - 0xF0) * 262144 + (b1 - 0x80) * 4096 + (b2 - 0x80) * 64 + (b3 - 0x80)
              < 0x110000 then
          some ((b0 - 0xF0) * 262144 + (b1 - 0x80) * 4096 + (b2 - 0x80) * 64 + (b3 - 0x80), t3)
        else none
      else none
    | _ => none
  else none

def utf8DecodeLoop : Nat → List Nat → Option (List Char)
  | _, [] => some []
  | 0, _ :: _ => none
  | fuel + 1, b0 :: t =>
    match utf8DecodeOne b0 t with
    | none => none
    | some (n, rest) => (utf8DecodeLoop fuel rest).map (fun cs => Char.ofNat n :: cs)

def utf8DecodeList (l : List Nat) : Option (List Char) := utf8DecodeLoop l.length l

/-- Model of Python strict `b.decode('utf-8')` (`none` = `UnicodeDecodeError`). -/
def bytesToStr (l : List Nat) : Option String := (utf8DecodeList l).map String.mk

/-! ### PKCS#7 padding (block size 16)

Models `cryptography.hazmat.primitives.padding.PKCS7(128)` as used by the
`AES256CBC` branch of `encrypt_with_key` / `decrypt_with_key`. -/
def pkcs7Pad (data : List Nat) : List Nat :=
  data ++ List.replicate (16 - data.length % 16) (16 - data.length % 16)

/-- `none` models the library raising `ValueError("Invalid padding bytes.")`. -/
def pkcs7Unpad (data : List Nat) : Option (List Nat) :=
  if data.length % 16 ≠ 0 ∨ data.length = 0 then none
  else
    match data.getLast? with
    | none => none
    | some p =>
      if 1 ≤ p ∧ p ≤ 16 ∧ data.drop (data.length - p) = List.replicate p p then
        some (data.take (data.length - p))
      else none

/-! ### First-occurrence marker split

Models Python `bytes.split(sep, 1)` followed by 2-tuple unpacking, as used
by the `HMAC*`, `ECC*` and `Ed25519` branches of `decrypt_with_key`
(`none` models the unpacking `ValueError`). -/
def findSub (marker : List Nat) : List Nat → Option Nat
  | [] => if marker.isPrefixOf ([] : List Nat) then some 0 else none
  | b :: t => if marker.isPrefixOf (b :: t) then some 0 else (findSub marker t).map (· + 1)

def splitOnce (marker l : List Nat) : Option (List Nat × List Nat) :=
  match findSub marker l with
  | none => none
  | some i => some (l.take i, l.drop (i + marker.length))

/-! ### Hex utilities -/
/-- Lowercase hex digit for a value below 16, as produced by Python
`hexdigest()` / consumed by `bytes.fromhex`. -/
def hexDigitLower (n : Nat) : Char :=
  if n < 10 then Char.ofNat (48 + n) else Char.ofNat (87 + n)

/-- Lowercase hex encoding of a byte string, modelling `hexdigest()`. -/
def hexEncodeBytes : List Nat → List Char
  | [] => []
  | b :: t => hexDigitLower (b / 16 % 16) :: hexDigitLower (b % 16) :: hexEncodeBytes t

def hexDigitVal (c : Char) : Option Nat :=
  if 48 ≤ c.toNat ∧ c.toNat ≤ 57 then some (c.toNat - 48)
  else if 97 ≤ c.toNat ∧ c.toNat ≤ 102 then some (c.toNat - 87)
  else if 65 ≤ c.toNat ∧ c.toNat ≤ 70 then some (c.toNat - 55)
  else none

def isPySpace (c : Char) : Bool :=
  c.toNat = 32 ∨ c.toNat = 9 ∨ c.toNat = 10 ∨ c.toNat = 13 ∨ c.toNat = 11 ∨ c.toNat = 12

/-- Model of Python `bytes.fromhex`: ASCII whitespace is skipped between
byte pairs; each byte is two hex digits; anything else fails. -/
def bytesFromHexAux : List Char → Option (List Nat)
  | [] => some []
  | c :: rest =>
    if isPySpace c then bytesFromHexAux rest
    else
      match rest with
      | [] => none
      | d :: rest2 =>
        match hexDigitVal c, hexDigitVal d with
        | some hi, some lo => (bytesFromHexAux rest2).map (fun bs => (hi * 16 + lo) :: bs)
        | _, _ => none

def bytesFromHex (s : String) : Option (List Nat) := bytesFromHexAux s.data

/-! ### Exception and primitive models -/
/-- Exception classes actually raised by the source's crypto paths:
`valueError` is Python's built-in `ValueError` (also raised by the
`cryptography` library's parameter validation and by PKCS#7 unpadding);
`invalidTag` is `cryptography.exceptions.InvalidTag` (AEAD
authentication failure); `unicodeDecodeError` is `UnicodeDecodeError`
from `bytes.decode('utf-8')`.  The repository defines no exception
classes of its own. -/
inductive PyErr where
  | valueError (msg : String)
  | invalidTag
  | unicodeDecodeError
deriving DecidableEq

/-- Modelled from the spec: the spec's error taxonomy names the typed
classes `IntegrityError`, `PaddingError`, `UnsupportedAlgorithm` and
`MalformedInput`.  No class with any of these names is defined anywhere
in the repository, so no runtime error value belongs to that taxonomy. -/
def specTypedError : PyErr → Bool := fun _ => false

/-- `fastapi.HTTPException` as raised by the routers: a status code and
a detail string. -/
structure HTTPException where
  status_code : Nat
  detail : String
deriving DecidableEq

/-- Abstract interface to the third-party `cryptography` / `base64`
primitives invoked by the source.  Each field models one library
operation; properties a theorem needs (e.g. that decryption inverts
encryption, or digest lengths) are stated as explicit hypotheses on a
`Prims` value.  Randomized primitives (RSA-OAEP encryption, ECDSA
signing) are modelled as deterministic functions of their inputs: the
claims under proof never compare two independent invocations, so a
fixed internal randomness is harmless.  `gcmEnc` returns
`(ciphertext, tag)`; `rsaEnc` is partial because OAEP rejects messages
longer than the modulus allows. -/
structure Prims where
  gcmEnc : List Nat → List Nat → List Nat → List Nat × List Nat
  gcmDec : List Nat → List Nat → List Nat → List Nat → Option (List Nat)
  cbcEnc : List Nat → List Nat → List Nat → List Nat
  cbcDec : List Nat → List Nat → List Nat → List Nat
  chachaEnc : List Nat → List Nat → List Nat → List Nat
  chachaDec : List Nat → List Nat → List Nat → Option (List Nat)
  rsaEnc : List Nat → List Nat → Option (List Nat)
  rsaDec : List Nat → List Nat → Option (List Nat)
  hmacSha256 : List Nat → List Nat → List Nat
  hmacSha512 : List Nat → List Nat → List Nat
  ecdsaSign : List Nat → List Nat → List Nat
  ecdsaVerify : List Nat → List Nat → List Nat → Bool
  edSign : List Nat → List Nat → List Nat
  edVerify : List Nat → List Nat → List Nat → Bool
  b64encode : List Nat → String
  b64decode : String → Option (List Nat)

/-! ### `backend/utils/crypto.py` -/
/-- Module-level `MASTER_KEY` initialization (`crypto.py` lines 10-22):
a missing **or empty** environment value raises
`ValueError("MASTER_KEY environment variable must be set")` (Python
`if not MASTER_KEY` treats the empty string like `None`); a hex string
is decoded to bytes, any other string is UTF-8 encoded and truncated to
32 bytes; a result shorter than 32 bytes raises
`ValueError("MASTER_KEY must be at least 32 bytes")`. -/
def masterKeyInit (env : Option String) : Except PyErr (List Nat) :=
  match env with
  | none => .error (.valueError "MASTER_KEY environment variable must be set")
  | some s =>
    if s = "" then .error (.valueError "MASTER_KEY environment variable must be set")
    else
      match bytesFromHex s with
      | some b =>
        if b.length < 32 then .error (.valueError "MASTER_KEY must be at least 32 bytes")
        else .ok b
      | none =>
        if ((strToBytes s).take 32).length < 32 then
          .error (.valueError "MASTER_KEY must be at least 32 bytes")
        else .ok ((strToBytes s).take 32)

/-- Module-level `AUDIT_SECRET` initialization (`audit.py` line 11):
`os.getenv("AUDIT_SECRET", "audit-secret-key-change-this")` — a missing
environment value silently falls back to the hard-coded default. -/
def auditSecretInit (env : Option String) : String :=
  env.getD "audit-secret-key-change-this"

/-- `encrypt_key_with_master`: AES-256-GCM under `MASTER_KEY[:32]` with a
fresh 12-byte nonce (passed here as the `nonce` argument), returning
`nonce + tag + ciphertext`. -/
def encrypt_key_with_master (P : Prims) (master nonce key_data : List Nat) : List Nat :=
  nonce ++ (P.gcmEnc (master.take 32) nonce key_data).2
    ++ (P.gcmEnc (master.take 32) nonce key_data).1

/-- `decrypt_key_with_master`: splits `nonce(12) | tag(16) | ciphertext`
and decrypts.  The two leading `ValueError` branches model the
`cryptography` library's GCM parameter validation (IV must be 8..128
bytes, supplied tag must be at least 16 bytes), which is what actually
fires on a buffer shorter than 28 bytes; `invalidTag` models
`decryptor.finalize()` raising `InvalidTag` on authentication failure. -/
def decrypt_key_with_master (P : Prims) (master encrypted_data : List Nat) :
    Except PyErr (List Nat) :=
  if (encrypted_data.take 12).length < 8 then
    .error (.valueError "Invalid IV size for GCM")
  else if ((encrypted_data.drop 12).take 16).length < 16 then
    .error (.valueError "Authentication tag must be 16 bytes or longer")
  else
    match P.gcmDec (master.take 32) (encrypted_data.take 12)
        ((encrypted_data.drop 12).take 16) (encrypted_data.drop 28) with
    | some key_data => .ok key_data
    | none => .error .invalidTag

/-- The byte string `b'|HMAC|'`. -/
def hmacMarker : List Nat := [124, 72, 77, 65, 67, 124]

/-- The byte string `b'|ECC|'`. -/
def eccMarker : List Nat := [124, 69, 67, 67, 124]

/-- The byte string `b'|Ed25519|'`. -/
def edMarker : List Nat := [124, 69, 100, 50, 53, 53, 49, 57, 124]

/-- `bytes.decode('utf-8')` as an `Except` computation. -/
def decodeUtf8E (b : List Nat) : Except PyErr String :=
  match bytesToStr b with
  | some s => .ok s
  | none => .error .unicodeDecodeError

/-- `encrypt_with_key(plaintext, key_data, key_type)`.  `rnd` stands for
the branch's single `secrets.token_bytes(..)` draw (12-byte GCM/ChaCha
nonce or 16-byte CBC IV; unused by the other branches). -/
def encrypt_with_key (P : Prims) (rnd : List Nat) (plaintext : String)
    (key_data : List Nat) (key_type : String) : Except PyErr (List Nat) :=
  if key_type = "AES128GCM" ∨ key_type = "AES256GCM" then
    .ok (rnd ++ (P.gcmEnc key_data rnd (strToBytes plaintext)).2
      ++ (P.gcmEnc key_data rnd (strToBytes plaintext)).1)
  else if key_type = "AES256CBC" then
    .ok (rnd ++ P.cbcEnc key_data rnd (pkcs7Pad (strToBytes plaintext)))
  else if key_type = "ChaCha20Poly1305" then
    .ok (rnd ++ P.chachaEnc key_data rnd (strToBytes plaintext))
  else if key_type = "HMAC256" ∨ key_type = "HMAC512" then
    .ok (strToBytes plaintext ++ hmacMarker ++
      (if key_type = "HMAC256" then P.hmacSha256 key_data (strToBytes plaintext)
       else P.hmacSha512 key_data (strToBytes plaintext)))
  else if key_type = "RSA2048" ∨ key_type = "RSA4096" then
    match P.rsaEnc key_data (strToBytes plaintext) with
    | some ct => .ok ct
    | none => .error (.valueError "Encryption failed for OAEP")
  else if key_type = "ECC256" ∨ key_type = "ECC384" then
    .ok (strToBytes plaintext ++ eccMarker ++ P.ecdsaSign key_data (strToBytes plaintext))
  else if key_type = "Ed25519" then
    .ok (strToBytes plaintext ++ edMarker ++ P.edSign key_data (strToBytes plaintext))
  else if key_type = "RSA" then
    match P.rsaEnc key_data (strToBytes plaintext) with
    | some ct => .ok ct
    | none => .error (.valueError "Encryption failed for OAEP")
  else .error (.valueError ("Unsupported key type: " ++ key_type))

/-- `decrypt_with_key(ciphertext, key_data, key_type)`.  Library
parameter-validation `ValueError`s (GCM IV/tag sizes, CBC IV size and
block alignment, ChaCha nonce size) are modelled where the library
raises them; all `raise ValueError(...)` statements of the source
appear with their messages. -/
def decrypt_with_key (P : Prims) (ciphertext key_data : List Nat) (key_type : String) :
    Except PyErr String :=
  if key_type = "AES128GCM" ∨ key_type = "AES256GCM" then
    if (ciphertext.take 12).length < 8 then
      .error (.valueError "Invalid IV size for GCM")
    else if ((ciphertext.drop 12).take 16).length < 16 then
      .error (.valueError "Authentication tag must be 16 bytes or longer")
    else
      match P.gcmDec key_data (ciphertext.take 12) ((ciphertext.drop 12).take 16)
          (ciphertext.drop 28) with
      | some pb => decodeUtf8E pb
      | none => .error .invalidTag
  else if key_type = "AES256CBC" then
    if (ciphertext.take 16).length ≠ 16 then
      .error (.valueError "Invalid IV size for CBC")
    else if (ciphertext.drop 16).length % 16 ≠ 0 then
      .error (.valueError "The length of the provided data is not a multiple of the block length")
    else
      match pkcs7Unpad (P.cbcDec key_data (ciphertext.take 16) (ciphertext.drop 16)) with
      | some pb => decodeUtf8E pb
      | none => .error (.valueError "Invalid padding bytes.")
  else if key_type = "ChaCha20Poly1305" then
    if (ciphertext.take 12).length ≠ 12 then
      .error (.valueError "Nonce must be 12 bytes")
    else
      match P.chachaDec key_data (ciphertext.take 12) (ciphertext.drop 12) with
      | some pb => decodeUtf8E pb
      | none => .error .invalidTag
  else if key_type = "HMAC256" ∨ key_type = "HMAC512" then
    match splitOnce hmacMarker ciphertext with
    | none => .error (.valueError "Invalid HMAC format")
    | some (plaintext_part, hmac_part) =>
      if hmac_part = (if key_type = "HMAC256" then P.hmacSha256 key_data plaintext_part
          else P.hmacSha512 key_data plaintext_part) then
        decodeUtf8E plaintext_part
      else .error (.valueError "HMAC verification failed")
  else if key_type = "RSA2048" ∨ key_type = "RSA4096" then
    match P.rsaDec key_data ciphertext with
    | some pb => decodeUtf8E pb
    | none => .error (.valueError "Decryption failed for OAEP")
  else if key_type = "ECC256" ∨ key_type = "ECC384" then
    match splitOnce eccMarker ciphertext with
    | none => .error (.valueError "Invalid ECC signature format")
    | some (plaintext_part, signature_part) =>
      if P.ecdsaVerify key_data signature_part plaintext_part then decodeUtf8E plaintext_part
      else .error (.valueError "ECC signature verification failed")
  else if key_type = "Ed25519" then
    match splitOnce edMarker ciphertext with
    | none => .error (.valueError "Invalid Ed25519 signature format")
    | some (plaintext_part, signature_part) =>
      if P.edVerify key_data signature_part plaintext_part then decodeUtf8E plaintext_part
      else .error (.valueError "Ed25519 signature verification failed")
  else if key_type = "RSA" then
    match P.rsaDec key_data ciphertext with
    | some pb => decodeUtf8E pb
    | none => .error (.valueError "Decryption failed for OAEP")
  else .error (.valueError ("Unsupported key type: " ++ key_type))

/-! ### Soundness properties of the abstract primitives -/
/-- GCM decryption inverts GCM encryption (under matching key/nonce/tag). -/
def GCMSound (P : Prims) : Prop :=
  ∀ k n pt, P.gcmDec k n (P.gcmEnc k n pt).2 (P.gcmEnc k n pt).1 = some pt

/-- GCM authentication tags are 16 bytes. -/
def GCMTagLen (P : Prims) : Prop := ∀ k n pt, (P.gcmEnc k n pt).2.length = 16

/-- CBC decryption inverts CBC encryption and preserves length. -/
def CBCSound (P : Prims) : Prop :=
  (∀ k iv x, P.cbcDec k iv (P.cbcEnc k iv x) = x) ∧
    (∀ k iv x, (P.cbcEnc k iv x).length = x.length)

/-- ChaCha20-Poly1305 decryption inverts encryption. -/
def ChaChaSound (P : Prims) : Prop := ∀ k n pt, P.chachaDec k n (P.chachaEnc k n pt) = some pt

/-- RSA-OAEP decryption inverts encryption whenever encryption succeeds. -/
def RSASound (P : Prims) : Prop :=
  ∀ k pt ct, P.rsaEnc k pt = some ct → P.rsaDec k ct = some pt

/-- A genuine ECDSA signature verifies. -/
def ECDSACorrect (P : Prims) : Prop := ∀ k m, P.ecdsaVerify k (P.ecdsaSign k m) m = true

/-- ECDSA signatures are DER-encoded: verification rejects any byte
string not starting with the DER SEQUENCE tag `0x30`. -/
def ECDSADer (P : Prims) : Prop :=
  ∀ k sg m, sg.head? ≠ some 48 → P.ecdsaVerify k sg m = false

/-- A genuine Ed25519 signature verifies. -/
def EdCorrect (P : Prims) : Prop := ∀ k m, P.edVerify k (P.edSign k m) m = true

/-- Ed25519 signatures are exactly 64 bytes, and verification rejects
any byte string of a different length. -/
def EdSigLen (P : Prims) : Prop :=
  (∀ k m, (P.edSign k m).length = 64) ∧
    (∀ k sg m, sg.length ≠ 64 → P.edVerify k sg m = false)

/-- HMAC-SHA256 digests are 32 bytes. -/
def Hmac256Len (P : Prims) : Prop := ∀ k m, (P.hmacSha256 k m).length = 32

/-- HMAC-SHA512 digests are 64 bytes. -/
def Hmac512Len (P : Prims) : Prop := ∀ k m, (P.hmacSha512 k m).length = 64

/-- A concrete toy instantiation of the primitive bundle, used to
verify that the primitive hypotheses are jointly satisfiable and to
evaluate the embedded functions on concrete inputs. -/
def toyPrims : Prims where
  gcmEnc := fun _ _ pt => (pt, List.replicate 16 0)
  gcmDec := fun _ _ tag ct => if tag = List.replicate 16 0 then some ct else none
  cbcEnc := fun _ _ x => x
  cbcDec := fun _ _ x => x
  chachaEnc := fun _ _ pt => pt
  chachaDec := fun _ _ ct => some ct
  rsaEnc := fun _ pt => some pt
  rsaDec := fun _ ct => some ct
  hmacSha256 := fun _ _ => List.replicate 32 0
  hmacSha512 := fun _ _ => List.replicate 64 0
  ecdsaSign := fun _ _ => [48]
  ecdsaVerify := fun _ sg _ => sg.head? = some 48
  edSign := fun _ _ => List.replicate 64 0
  edVerify := fun _ sg _ => sg.length = 64
  b64encode := fun _ => ""
  b64decode := fun _ => some []

/-! ### `backend/db.py` record and `backend/routers/keys.py` handlers

Timestamps (`datetime`) are modelled as integers; the SQLAlchemy lookup
`db.query(CryptoKey).filter(CryptoKey.id == key_id).first()` is
modelled by passing the looked-up record as an `Option CryptoKey`
(`none` = no row).  JWT verification and the admin-role check are
authentication plumbing outside the claims and are omitted; each
handler body below starts at the point where the record has been
fetched. -/
structure CryptoKey where
  id : Nat
  name : String
  key_type : String
  encrypted_key : List Nat
  key_version : Nat
  is_active : Bool
  is_revoked : Bool
  created_by : Nat
  created_at : Int
  rotated_at : Option Int
  revoked_at : Option Int
deriving DecidableEq

/-- `revoke_key` (`keys.py` lines 176-214): no revoked-state check —
the record is unconditionally marked revoked, deactivated, and
`revoked_at` is stamped with the current time. -/
def revoke_key (rec? : Option CryptoKey) (now : Int) : Except HTTPException CryptoKey :=
  match rec? with
  | none => .error ⟨404, "Key not found"⟩
  | some k => .ok { k with is_revoked := true, is_active := false, revoked_at := some now }

/-- `rotate_key` (`keys.py` lines 124-174): 404 when absent, 400 when
revoked; otherwise re-wraps freshly generated material of the record's
own `key_type` (the fresh material is the `fresh` argument, the wrap
nonce is `wrapNonce`), increments the version and stamps `rotated_at`. -/
def rotate_key (P : Prims) (master : List Nat) (rec? : Option CryptoKey)
    (fresh wrapNonce : List Nat) (now : Int) : Except HTTPException CryptoKey :=
  match rec? with
  | none => .error ⟨404, "Key not found"⟩
  | some k =>
    if k.is_revoked then .error ⟨400, "Cannot rotate a revoked key"⟩
    else .ok { k with
      encrypted_key := encrypt_key_with_master P master wrapNonce fresh,
      key_version := k.key_version + 1,
      rotated_at := some now }

/-! ### `backend/utils/rotation.py` -/
/-- `should_rotate_key(key, rotation_days)`: `False` for revoked or
inactive records, else compares `rotated_at or created_at` against
`now - rotation_days` with a strict `<`. -/
def should_rotate_key (k : CryptoKey) (now : Int) (rotation_days : Int) : Bool :=
  if k.is_revoked ∨ k.is_active = false then false
  else (k.rotated_at.getD k.created_at) < now - rotation_days

/-- `rotate_key_if_needed`: rotates (new wrap, version bump, stamp)
exactly when `should_rotate_key` holds; returns whether it rotated
together with the resulting record. -/
def rotate_key_if_needed (P : Prims) (master : List Nat) (k : CryptoKey)
    (fresh wrapNonce : List Nat) (now : Int) (rotation_days : Int) : Bool × CryptoKey :=
  if should_rotate_key k now rotation_days = false then (false, k)
  else (true, { k with
    encrypted_key := encrypt_key_with_master P master wrapNonce fresh,
    key_version := k.key_version + 1,
    rotated_at := some now })

/-! ### `backend/routers/encrypt.py` handlers -/
/-- The post-gate body of `encrypt_data`: unwrap the stored key, seal
the plaintext, base64 the result; any exception becomes HTTP 500. -/
def encryptPipeline (P : Prims) (master : List Nat) (k : CryptoKey) (rnd : List Nat)
    (plaintext : String) : Except HTTPException String :=
  match (decrypt_key_with_master P master k.encrypted_key).bind
      (fun raw => encrypt_with_key P rnd plaintext raw k.key_type) with
  | .ok ct => .ok (P.b64encode ct)
  | .error _ => .error ⟨500, "Encryption failed"⟩

/-- `encrypt_data` (`encrypt.py` lines 34-70): 404 when the key row is
absent; 400 before any cryptography when the record is not active or
is revoked; otherwise the crypto pipeline runs. -/
def encrypt_data (P : Prims) (master : List Nat) (rec? : Option CryptoKey) (rnd : List Nat)
    (plaintext : String) : Except HTTPException String :=
  match rec? with
  | none => .error ⟨404, "Key not found"⟩
  | some k =>
    if k.is_active = false ∨ k.is_revoked then
      .error ⟨400, "Key is not active or has been revoked"⟩
    else encryptPipeline P master k rnd plaintext

/-- The post-gate body of `decrypt_data`: unwrap the stored key, base64
decode the request ciphertext, open it; any exception becomes HTTP 500. -/
def decryptPipeline (P : Prims) (master : List Nat) (k : CryptoKey)
    (ciphertextB64 : String) : Except HTTPException String :=
  match (decrypt_key_with_master P master k.encrypted_key).bind (fun raw =>
      match P.b64decode ciphertextB64 with
      | some ct => decrypt_with_key P ct raw k.key_type
      | none => .error (.valueError "Invalid base64-encoded string")) with
  | .ok pt => .ok pt
  | .error _ => .error ⟨500, "Decryption failed"⟩

/-- `decrypt_data` (`encrypt.py` lines 72-110): 404 when absent; 400
(`"Key is not available"`) exactly when the record is neither active
nor revoked; revoked records are allowed through for legacy data. -/
def decrypt_data (P : Prims) (master : List Nat) (rec? : Option CryptoKey)
    (ciphertextB64 : String) : Except HTTPException String :=
  match rec? with
  | none => .error ⟨404, "Key not found"⟩
  | some k =>
    if k.is_active = false ∧ k.is_revoked = false then
      .error ⟨400, "Key is not available"⟩
    else decryptPipeline P master k ciphertextB64

/-! ### `backend/utils/audit.py`

`json.dumps(log_data, sort_keys=True, separators=(',', ':'))` over the
fixed nine-field dict is modelled concretely, including Python's
`ensure_ascii` string escaping.  The HMAC-SHA256 primitive itself is an
abstract function argument `h256`; `hexdigest()` is the concrete
`hexEncodeBytes`. -/
structure AuditLogData where
  user_id : Option Int
  action : String
  resource_type : String
  resource_id : Option String
  ip_address : String
  status : String
  details : Option String
  user_agent : Option String
  timestamp : String
deriving DecidableEq

/-- The stored `AuditLog` row (`db.py`): the signed fields plus the
stored signature.  `timestamp` is the `isoformat()` string of the
datetime column. -/
structure AuditLog where
  user_id : Option Int
  action : String
  resource_type : String
  resource_id : Option String
  ip_address : String
  user_agent : Option String
  status : String
  details : Option String
  hmac_signature : String
  timestamp : String
deriving DecidableEq

/-- One character of Python `json.dumps` string escaping with
`ensure_ascii=True`. -/
def jsonEscapeChar (c : Char) : List Char :=
  if c = Char.ofNat 34 then [Char.ofNat 92, Char.ofNat 34]
  else if c = Char.ofNat 92 then [Char.ofNat 92, Char.ofNat 92]
  else if c.toNat = 10 then [Char.ofNat 92, Char.ofNat 110]
  else if c.toNat = 13 then [Char.ofNat 92, Char.ofNat 114]
  else if c.toNat = 9 then [Char.ofNat 92, Char.ofNat 116]
  else if c.toNat = 8 then [Char.ofNat 92, Char.ofNat 98]
  else if c.toNat = 12 then [Char.ofNat 92, Char.ofNat 102]
  else if c.toNat < 32 ∨ (0x7E < c.toNat ∧ c.toNat < 0x10000) then
    [Char.ofNat 92, Char.ofNat 117, hexDigitLower (c.toNat / 4096 % 16),
      hexDigitLower (c.toNat / 256 % 16), hexDigitLower (c.toNat / 16 % 16),
      hexDigitLower (c.toNat % 16)]
  else if 0x10000 ≤ c.toNat then
    [Char.ofNat 92, Char.ofNat 117,
      hexDigitLower ((0xD800 + (c.toNat - 0x10000) / 1024) / 4096 % 16),
      hexDigitLower ((0xD800 + (c.toNat - 0x10000) / 1024) / 256 % 16),
      hexDigitLower ((0xD800 + (c.toNat - 0x10000) / 1024) / 16 % 16),
      hexDigitLower ((0xD800 + (c.toNat - 0x10000) / 1024) % 16),
      Char.ofNat 92, Char.ofNat 117,
      hexDigitLower ((0xDC00 + (c.toNat - 0x10000) % 1024) / 4096 % 16),
      hexDigitLower ((0xDC00 + (c.toNat - 0x10000) % 1024) / 256 % 16),
      hexDigitLower ((0xDC00 + (c.toNat - 0x10000) % 1024) / 16 % 16),
      hexDigitLower ((0xDC00 + (c.toNat - 0x10000) % 1024) % 16)]
  else [c]

def jsonEscapeList : List Char → List Char
  | [] => []
  | c :: cs => jsonEscapeChar c ++ jsonEscapeList cs

/-- A JSON string literal. -/
def jsonStr (str : String) : String :=
  String.mk (Char.ofNat 34 :: jsonEscapeList str.data ++ [Char.ofNat 34])

def jsonOptStr : Option String → String
  | none => "null"
  | some str => jsonStr str

def jsonOptInt : Option Int → String
  | none => "null"
  | some i => toString i

/-- `json.dumps(log_data, sort_keys=True, separators=(',', ':'))` for the
nine-key dict built by `log_audit` / `verify_audit_log`; the sorted key
order is action, details, ip_address, resource_id, resource_type,
status, timestamp, user_agent, user_id. -/
def canonicalJson (d : AuditLogData) : String :=
  "\x7b\"action\":" ++ jsonStr d.action ++
    ",\"details\":" ++ jsonOptStr d.details ++
    ",\"ip_address\":" ++ jsonStr d.ip_address ++
    ",\"resource_id\":" ++ jsonOptStr d.resource_id ++
    ",\"resource_type\":" ++ jsonStr d.resource_type ++
    ",\"status\":" ++ jsonStr d.status ++
    ",\"timestamp\":" ++ jsonStr d.timestamp ++
    ",\"user_agent\":" ++ jsonOptStr d.user_agent ++
    ",\"user_id\":" ++ jsonOptInt d.user_id ++ "\x7d"

/-- `calculate_hmac(log_data)`: HMAC-SHA256 (abstract `h256`) of the
canonical JSON under the audit secret, hex-encoded. -/
def calculate_hmac (h256 : List Nat → List Nat → List Nat) (secret : String)
    (d : AuditLogData) : String :=
  String.mk (hexEncodeBytes (h256 (strToBytes secret) (strToBytes (canonicalJson d))))

/-- The dict with which `log_audit` computes the signature it stores. -/
def logDataOfFields (user_id : Option Int) (action resource_type : String)
    (resource_id : Option String) (ip_address status : String)
    (details user_agent : Option String) (timestamp : String) : AuditLogData :=
  ⟨user_id, action, resource_type, resource_id, ip_address, status, details,
    user_agent, timestamp⟩

/-- `log_audit`: builds the log-data dict, signs it, and stores the row
with the computed `hmac_signature`. -/
def log_audit (h256 : List Nat → List Nat → List Nat) (secret : String)
    (user_id : Option Int) (action resource_type : String) (resource_id : Option String)
    (ip_address status : String) (details user_agent : Option String)
    (timestamp : String) : AuditLog :=
  { user_id := user_id, action := action, resource_type := resource_type,
    resource_id := resource_id, ip_address := ip_address, user_agent := user_agent,
    status := status, details := details,
    hmac_signature := calculate_hmac h256 secret
      (logDataOfFields user_id action resource_type resource_id ip_address status
        details user_agent timestamp),
    timestamp := timestamp }

/-- The dict rebuilt by `verify_audit_log` from a stored row. -/
def logDataOfLog (log : AuditLog) : AuditLogData :=
  ⟨log.user_id, log.action, log.resource_type, log.resource_id, log.ip_address,
    log.status, log.details, log.user_agent, log.timestamp⟩

/-- `verify_audit_log`: recompute the canonical signature and compare it
(`hmac.compare_digest`) with the stored one. -/
def verify_audit_log (h256 : List Nat → List Nat → List Nat) (secret : String)
    (log : AuditLog) : Bool :=
  calculate_hmac h256 secret (logDataOfLog log) == log.hmac_signature

/-- No occurrence of `marker` begins strictly before the appended copy in
`pb ++ marker` (rules out occurrences inside `pb` and occurrences
straddling the boundary), so a first-occurrence split is unambiguous. -/
def markerClean (marker pb : List Nat) : Prop :=
  ∀ i, i < pb.length → marker.isPrefixOf ((pb ++ marker).drop i) = false

theorem utf8DecodeOne_lt80 (b0 : Nat) (t : List Nat) (h : b0 < 0x80) :
    utf8DecodeOne b0 t = some (b0, t) := by
  rw [utf8DecodeOne.eq_def, if_pos h]

theorem utf8DecodeOne_two (b0 b1 : Nat) (rest : List Nat)
    (h0 : 0xC2 ≤ b0) (h1 : b0 < 0xE0) (hc : 0x80 ≤ b1 ∧ b1 < 0xC0) :
    utf8DecodeOne b0 (b1 :: rest) = some ((b0 - 0xC0) * 64 + (b1 - 0x80), rest) := by
  rw [utf8DecodeOne.eq_def]
  rw [if_neg (by omega), if_neg (by omega), if_pos h1]
  dsimp only
  rw [if_pos hc]

theorem utf8DecodeOne_three (b0 b1 b2 : Nat) (rest : List Nat)
    (h0 : 0xE0 ≤ b0) (h1 : b0 < 0xF0)
    (hc1 : 0x80 ≤ b1 ∧ b1 < 0xC0) (hc2 : 0x80 ≤ b2 ∧ b2 < 0xC0)
    (hval : 0x800 ≤ (b0 - 0xE0) * 4096 + (b1 - 0x80) * 64 + (b2 - 0x80) ∧
      ((b0 - 0xE0) * 4096 + (b1 - 0x80) * 64 + (b2 - 0x80) < 0xD800 ∨
        0xDFFF < (b0 - 0xE0) * 4096 + (b1 - 0x80) * 64 + (b2 - 0x80))) :
    utf8DecodeOne b0 (b1 :: b2 :: rest)
      = some ((b0 - 0xE0) * 4096 + (b1 - 0x80) * 64 + (b2 - 0x80), rest) := by
  rw [utf8DecodeOne.eq_def]
  rw [if_neg (by omega), if_neg (by omega), if_neg (by omega), if_pos h1]
  dsimp only
  rw [if_pos ⟨hc1, hc2⟩, if_pos hval]

theorem utf8DecodeOne_four (b0 b1 b2 b3 : Nat) (rest : List Nat)
    (h0 : 0xF0 ≤ b0) (h1 : b0 < 0xF5)
    (hc1 : 0x80 ≤ b1 ∧ b1 < 0xC0) (hc2 : 0x80 ≤ b2 ∧ b2 < 0xC0) (hc3 : 0x80 ≤ b3 ∧ b3 < 0xC0)
    (hval : 0x10000 ≤ (b0 - 0xF0) * 262144 + (b1 - 0x80) * 4096 + (b2 - 0x80) * 64 + (b3 - 0x80) ∧
      (b0 - 0xF0) * 262144 + (b1 - 0x80) * 4096 + (b2 - 0x80) * 64 + (b3 - 0x80) < 0x110000) :
    utf8DecodeOne b0 (b1 :: b2 :: b3 :: rest)
      = some ((b0 - 0xF0) * 262144 + (b1 - 0x80) * 4096 + (b2 - 0x80) * 64 + (b3 - 0x80), rest) := by
  rw [utf8DecodeOne.eq_def]
  rw [if_neg (by omega), if_neg (by omega), if_neg (by omega), if_neg (by omega), if_pos h1]
  dsimp only
  rw [if_pos ⟨hc1, hc2, hc3⟩, if_pos hval]

theorem utf8EncodeList_length_cons (c : Char) (cs : List Char) :
    1 ≤ (utf8EncodeList (c :: cs)).length := by
  rw [utf8EncodeList, utf8EncodeChar]
  split
  · simp
  · split
    · simp
    · split <;> simp

theorem utf8DecodeLoop_encodeList (cs : List Char) (fuel : Nat)
    (hf : (utf8EncodeList cs).length ≤ fuel) :
    utf8DecodeLoop fuel (utf8EncodeList cs) = some cs := by
  induction cs generalizing fuel with
  | nil => rw [utf8EncodeList]; rw [utf8DecodeLoop]
  | cons c cs ih =>
    have hv : Nat.isValidChar c.toNat := c.valid
    have hv' : c.toNat < 0xD800 ∨ (0xDFFF < c.toNat ∧ c.toNat < 0x110000) := hv
    rw [utf8EncodeList] at hf ⊢
    obtain ⟨f, rfl⟩ : ∃ f, fuel = f + 1 := by
      rcases fuel with _ | f
      · exfalso
        have h1 := utf8EncodeList_length_cons c cs
        rw [utf8EncodeList] at h1
        omega
      · exact ⟨f, rfl⟩
    by_cases h1 : c.toNat < 0x80
    · rw [utf8EncodeChar, if_pos h1] at hf ⊢
      simp only [List.cons_append, List.nil_append, List.length_cons, List.length_append] at hf ⊢
      rw [utf8DecodeLoop, utf8DecodeOne_lt80 _ _ h1]
      dsimp only
      rw [ih f (by omega), Char.ofNat_toNat]
      rfl
    · by_cases h2 : c.toNat < 0x800
      · rw [utf8EncodeChar, if_neg h1, if_pos h2] at hf ⊢
        simp only [List.cons_append, List.nil_append, List.length_cons,
          List.length_append] at hf ⊢
        rw [utf8DecodeLoop, utf8DecodeOne_two _ _ _ (by omega) (by omega) (by omega)]
        dsimp only
        have he : (0xC0 + c.toNat / 64 - 0xC0) * 64 + (0x80 + c.toNat % 64 - 0x80)
            = c.toNat := by omega
        rw [he, ih f (by omega), Char.ofNat_toNat]
        rfl
      · by_cases h3 : c.toNat < 0x10000
        · rw [utf8EncodeChar, if_neg h1, if_neg h2, if_pos h3] at hf ⊢
          simp only [List.cons_append, List.nil_append, List.length_cons,
            List.length_append] at hf ⊢
          have he : (0xE0 + c.toNat / 4096 - 0xE0) * 4096
              + (0x80 + c.toNat / 64 % 64 - 0x80) * 64
              + (0x80 + c.toNat % 64 - 0x80) = c.toNat := by omega
          rw [utf8DecodeLoop, utf8DecodeOne_three _ _ _ _ (by omega) (by omega) (by omega)
            (by omega) (by rw [he]; omega)]
          dsimp only
          rw [he, ih f (by omega), Char.ofNat_toNat]
          rfl
        · rw [utf8EncodeChar, if_neg h1, if_neg h2, if_neg h3] at hf ⊢
          simp only [List.cons_append, List.nil_append, List.length_cons,
            List.length_append] at hf ⊢
          have he : (0xF0 + c.toNat / 262144 - 0xF0) * 262144
              + (0x80 + c.toNat / 4096 % 64 - 0x80) * 4096
              + (0x80 + c.toNat / 64 % 64 - 0x80) * 64 + (0x80 + c.toNat % 64 - 0x80)
              = c.toNat := by omega
          rw [utf8DecodeLoop, utf8DecodeOne_four _ _ _ _ _ (by omega) (by omega) (by omega)
            (by omega) (by omega) (by rw [he]; omega)]
          dsimp only
          rw [he, ih f (by omega), Char.ofNat_toNat]
          rfl

theorem utf8DecodeList_encodeList (cs : List Char) :
    utf8DecodeList (utf8EncodeList cs) = some cs :=
  utf8DecodeLoop_encodeList cs _ (Nat.le_refl _)

/-- Decoding the UTF-8 encoding of a string recovers the string. -/
theorem bytesToStr_strToBytes (s : String) : bytesToStr (strToBytes s) = some s := by
  rw [strToBytes, bytesToStr, utf8DecodeList_encodeList]
  rfl

theorem pkcs7Pad_length (data : List Nat) :
    (pkcs7Pad data).length = data.length + (16 - data.length % 16) := by
  rw [pkcs7Pad]
  simp

theorem pkcs7Pad_length_mod (data : List Nat) : (pkcs7Pad data).length % 16 = 0 := by
  rw [pkcs7Pad_length]
  omega

theorem pkcs7Unpad_pad (data : List Nat) : pkcs7Unpad (pkcs7Pad data) = some data := by
  have hlen := pkcs7Pad_length data
  have hmod := pkcs7Pad_length_mod data
  have hp : 1 ≤ 16 - data.length % 16 ∧ 16 - data.length % 16 ≤ 16 := by omega
  rw [pkcs7Unpad, if_neg (by omega)]
  have hlast : (pkcs7Pad data).getLast? = some (16 - data.length % 16) := by
    rw [pkcs7Pad, List.getLast?_append, List.getLast?_replicate, if_neg (by omega)]
    rfl
  rw [hlast]
  dsimp only
  have hsub : (pkcs7Pad data).length - (16 - data.length % 16) = data.length := by omega
  rw [hsub]
  have hdrop : (pkcs7Pad data).drop data.length
      = List.replicate (16 - data.length % 16) (16 - data.length % 16) := by
    rw [pkcs7Pad, List.drop_left]
  rw [if_pos ⟨hp.1, hp.2, hdrop⟩]
  rw [pkcs7Pad, List.take_left]

theorem isPrefixOf_append_self (m d : List Nat) : m.isPrefixOf (m ++ d) = true := by
  induction m with
  | nil => simp
  | cons a m ih => simp [List.isPrefixOf, ih]

theorem isPrefixOf_of_append (m y d : List Nat) (hle : m.length ≤ y.length)
    (h : m.isPrefixOf (y ++ d) = true) : m.isPrefixOf y = true := by
  induction m generalizing y with
  | nil => simp
  | cons a m ih =>
    match y with
    | [] => simp at hle
    | b :: y' =>
      simp only [List.cons_append, List.isPrefixOf, Bool.and_eq_true] at h ⊢
      exact ⟨h.1, ih y' (by simpa using hle) h.2⟩

theorem findSub_boundary (marker pre post : List Nat)
    (hpost : marker.isPrefixOf post = true)
    (h : ∀ i, i < pre.length → marker.isPrefixOf ((pre ++ post).drop i) = false) :
    findSub marker (pre ++ post) = some pre.length := by
  induction pre with
  | nil =>
    match post, hpost with
    | [], hpost =>
      rw [List.nil_append, findSub, if_pos hpost]
      rfl
    | b :: t, hpost =>
      rw [List.nil_append, findSub, if_pos hpost]
      rfl
  | cons a pre' ih =>
    have h0 : marker.isPrefixOf (a :: (pre' ++ post)) = false := by
      have := h 0 (by simp)
      simpa using this
    rw [List.cons_append, findSub, h0]
    simp only [Bool.false_eq_true, if_false]
    have ih' := ih (fun i hi => by
      have := h (i + 1) (by simp; omega)
      simpa using this)
    rw [ih']
    simp

/-- If the marker occurs nowhere strictly inside `pre ++ marker` before the
final copy (not even straddling the boundary), then splitting
`pre ++ marker ++ d` at the first marker occurrence yields `(pre, d)`. -/
theorem splitOnce_append (marker pre d : List Nat)
    (h : ∀ i, i < pre.length → marker.isPrefixOf ((pre ++ marker).drop i) = false) :
    splitOnce marker (pre ++ marker ++ d) = some (pre, d) := by
  have hfind : findSub marker (pre ++ (marker ++ d)) = some pre.length := by
    apply findSub_boundary
    · exact isPrefixOf_append_self marker d
    · intro i hi
      have hi' : i ≤ (pre ++ marker).length := by simp; omega
      have hdrop : (pre ++ (marker ++ d)).drop i = (pre ++ marker).drop i ++ d := by
        rw [← List.append_assoc, List.drop_append_of_le_length hi']
      rw [hdrop]
      by_contra hcon
      have htrue : marker.isPrefixOf ((pre ++ marker).drop i ++ d) = true := by
        revert hcon
        cases marker.isPrefixOf ((pre ++ marker).drop i ++ d) <;> simp
      have hlen : marker.length ≤ ((pre ++ marker).drop i).length := by
        simp only [List.length_drop, List.length_append]
        omega
      have := isPrefixOf_of_append marker _ d hlen htrue
      rw [h i hi] at this
      exact Bool.noConfusion this
  rw [splitOnce, List.append_assoc, hfind]
  dsimp only
  have htake : (pre ++ (marker ++ d)).take pre.length = pre := List.take_left pre _
  have hdrop : (pre ++ (marker ++ d)).drop (pre.length + marker.length) = d := by
    rw [← List.append_assoc]
    exact List.drop_left' (by simp)
  rw [htake, hdrop]

theorem toyPrims_gcmSound : GCMSound toyPrims := by
  intro k n pt
  simp [toyPrims, GCMSound]

theorem toyPrims_gcmTagLen : GCMTagLen toyPrims := by
  intro k n pt
  simp [toyPrims]

theorem toyPrims_cbcSound : CBCSound toyPrims := by
  constructor <;> intro k iv x <;> simp [toyPrims]

theorem toyPrims_chachaSound : ChaChaSound toyPrims := by
  intro k n pt
  simp [toyPrims]

theorem toyPrims_rsaSound : RSASound toyPrims := by
  intro k pt ct h
  simp [toyPrims] at h ⊢
  exact h.symm

theorem toyPrims_ecdsaCorrect : ECDSACorrect toyPrims := by
  intro k m
  simp [toyPrims]

theorem toyPrims_ecdsaDer : ECDSADer toyPrims := by
  intro k sg m h
  simp [toyPrims]
  exact h

theorem toyPrims_edCorrect : EdCorrect toyPrims := by
  intro k m
  simp [toyPrims]

theorem toyPrims_edSigLen : EdSigLen toyPrims := by
  constructor
  · intro k m
    simp [toyPrims]
  · intro k sg m h
    simp [toyPrims]
    exact h

theorem toyPrims_hmac256Len : Hmac256Len toyPrims := by
  intro k m
  simp [toyPrims]

theorem toyPrims_hmac512Len : Hmac512Len toyPrims := by
  intro k m
  simp [toyPrims]

theorem decodeUtf8E_strToBytes (s : String) : decodeUtf8E (strToBytes s) = .ok s := by
  rw [decodeUtf8E.eq_def, bytesToStr_strToBytes]

theorem decrypt_dispatch_gcm (P : Prims) (ct kd : List Nat) (kt : String)
    (h : kt = "AES128GCM" ∨ kt = "AES256GCM") :
    decrypt_with_key P ct kd kt =
      if (ct.take 12).length < 8 then .error (.valueError "Invalid IV size for GCM")
      else if ((ct.drop 12).take 16).length < 16 then
        .error (.valueError "Authentication tag must be 16 bytes or longer")
      else
        match P.gcmDec kd (ct.take 12) ((ct.drop 12).take 16) (ct.drop 28) with
        | some pb => decodeUtf8E pb
        | none => .error .invalidTag := by
  rcases h with rfl | rfl <;> rfl

theorem decrypt_dispatch_cbc (P : Prims) (ct kd : List Nat) :
    decrypt_with_key P ct kd "AES256CBC" =
      if (ct.take 16).length ≠ 16 then .error (.valueError "Invalid IV size for CBC")
      else if (ct.drop 16).length % 16 ≠ 0 then
        .error
          (.valueError "The length of the provided data is not a multiple of the block length")
      else
        match pkcs7Unpad (P.cbcDec kd (ct.take 16) (ct.drop 16)) with
        | some pb => decodeUtf8E pb
        | none => .error (.valueError "Invalid padding bytes.") := rfl

theorem decrypt_dispatch_chacha (P : Prims) (ct kd : List Nat) :
    decrypt_with_key P ct kd "ChaCha20Poly1305" =
      if (ct.take 12).length ≠ 12 then .error (.valueError "Nonce must be 12 bytes")
      else
        match P.chachaDec kd (ct.take 12) (ct.drop 12) with
        | some pb => decodeUtf8E pb
        | none => .error .invalidTag := rfl

theorem decrypt_dispatch_hmac256 (P : Prims) (ct kd : List Nat) :
    decrypt_with_key P ct kd "HMAC256" =
      match splitOnce hmacMarker ct with
      | none => .error (.valueError "Invalid HMAC format")
      | some (plaintext_part, hmac_part) =>
        if hmac_part = P.hmacSha256 kd plaintext_part then decodeUtf8E plaintext_part
        else .error (.valueError "HMAC verification failed") := rfl

theorem decrypt_dispatch_hmac512 (P : Prims) (ct kd : List Nat) :
    decrypt_with_key P ct kd "HMAC512" =
      match splitOnce hmacMarker ct with
      | none => .error (.valueError "Invalid HMAC format")
      | some (plaintext_part, hmac_part) =>
        if hmac_part = P.hmacSha512 kd plaintext_part then decodeUtf8E plaintext_part
        else .error (.valueError "HMAC verification failed") := rfl

theorem decrypt_dispatch_rsa (P : Prims) (ct kd : List Nat) (kt : String)
    (h : kt = "RSA2048" ∨ kt = "RSA4096" ∨ kt = "RSA") :
    decrypt_with_key P ct kd kt =
      match P.rsaDec kd ct with
      | some pb => decodeUtf8E pb
      | none => .error (.valueError "Decryption failed for OAEP") := by
  rcases h with rfl | rfl | rfl <;> rfl

theorem decrypt_dispatch_ecc (P : Prims) (ct kd : List Nat) (kt : String)
    (h : kt = "ECC256" ∨ kt = "ECC384") :
    decrypt_with_key P ct kd kt =
      match splitOnce eccMarker ct with
      | none => .error (.valueError "Invalid ECC signature format")
      | some (plaintext_part, signature_part) =>
        if P.ecdsaVerify kd signature_part plaintext_part then decodeUtf8E plaintext_part
        else .error (.valueError "ECC signature verification failed") := by
  rcases h with rfl | rfl <;> rfl

theorem decrypt_dispatch_ed (P : Prims) (ct kd : List Nat) :
    decrypt_with_key P ct kd "Ed25519" =
      match splitOnce edMarker ct with
      | none => .error (.valueError "Invalid Ed25519 signature format")
      | some (plaintext_part, signature_part) =>
        if P.edVerify kd signature_part plaintext_part then decodeUtf8E plaintext_part
        else .error (.valueError "Ed25519 signature verification failed") := rfl

theorem markerClean_no_early (marker pb d : List Nat) (h : markerClean marker pb) :
    splitOnce marker (pb ++ marker ++ d) = some (pb, d) :=
  splitOnce_append marker pb d h

theorem roundtrip_gcm (P : Prims) (hG : GCMSound P) (hT : GCMTagLen P)
    (kt : String) (hkt : kt = "AES128GCM" ∨ kt = "AES256GCM")
    (kd rnd : List Nat) (s : String) (hr : rnd.length = 12) :
    (encrypt_with_key P rnd s kd kt).bind (fun c => decrypt_with_key P c kd kt) = .ok s := by
  have he : encrypt_with_key P rnd s kd kt
      = .ok (rnd ++ (P.gcmEnc kd rnd (strToBytes s)).2 ++ (P.gcmEnc kd rnd (strToBytes s)).1) := by
    rcases hkt with rfl | rfl <;> rfl
  rw [he]
  show decrypt_with_key P _ kd kt = .ok s
  rw [decrypt_dispatch_gcm P _ kd kt hkt]
  have h1 : ((rnd ++ (P.gcmEnc kd rnd (strToBytes s)).2) ++ (P.gcmEnc kd rnd (strToBytes s)).1).take 12
      = rnd := by
    rw [List.append_assoc]
    exact List.take_left' hr
  have h2 : (((rnd ++ (P.gcmEnc kd rnd (strToBytes s)).2) ++ (P.gcmEnc kd rnd (strToBytes s)).1).drop 12).take 16
      = (P.gcmEnc kd rnd (strToBytes s)).2 := by
    rw [List.append_assoc, List.drop_left' hr]
    exact List.take_left' (hT kd rnd (strToBytes s))
  have h3 : ((rnd ++ (P.gcmEnc kd rnd (strToBytes s)).2) ++ (P.gcmEnc kd rnd (strToBytes s)).1).drop 28
      = (P.gcmEnc kd rnd (strToBytes s)).1 := by
    refine List.drop_left' ?_
    rw [List.length_append, hr, hT kd rnd (strToBytes s)]
  rw [h1, h2, h3]
  rw [if_neg (by omega), if_neg (by rw [hT kd rnd (strToBytes s)]; omega)]
  rw [hG kd rnd (strToBytes s)]
  exact decodeUtf8E_strToBytes s

theorem roundtrip_cbc (P : Prims) (hB : CBCSound P)
    (kd rnd : List Nat) (s : String) (hr : rnd.length = 16) :
    (encrypt_with_key P rnd s kd "AES256CBC").bind
      (fun c => decrypt_with_key P c kd "AES256CBC") = .ok s := by
  have he : encrypt_with_key P rnd s kd "AES256CBC"
      = .ok (rnd ++ P.cbcEnc kd rnd (pkcs7Pad (strToBytes s))) := rfl
  rw [he]
  show decrypt_with_key P _ kd _ = .ok s
  rw [decrypt_dispatch_cbc]
  have h1 : (rnd ++ P.cbcEnc kd rnd (pkcs7Pad (strToBytes s))).take 16 = rnd :=
    List.take_left' hr
  have h2 : (rnd ++ P.cbcEnc kd rnd (pkcs7Pad (strToBytes s))).drop 16
      = P.cbcEnc kd rnd (pkcs7Pad (strToBytes s)) :=
    List.drop_left' hr
  rw [h1, h2]
  rw [if_neg (by rw [hr]; omega)]
  rw [if_neg (by rw [hB.2 kd rnd (pkcs7Pad (strToBytes s)), pkcs7Pad_length]; omega)]
  rw [hB.1 kd rnd (pkcs7Pad (strToBytes s)), pkcs7Unpad_pad]
  exact decodeUtf8E_strToBytes s

theorem roundtrip_chacha (P : Prims) (hC : ChaChaSound P)
    (kd rnd : List Nat) (s : String) (hr : rnd.length = 12) :
    (encrypt_with_key P rnd s kd "ChaCha20Poly1305").bind
      (fun c => decrypt_with_key P c kd "ChaCha20Poly1305") = .ok s := by
  have he : encrypt_with_key P rnd s kd "ChaCha20Poly1305"
      = .ok (rnd ++ P.chachaEnc kd rnd (strToBytes s)) := rfl
  rw [he]
  show decrypt_with_key P _ kd _ = .ok s
  rw [decrypt_dispatch_chacha]
  have h1 : (rnd ++ P.chachaEnc kd rnd (strToBytes s)).take 12 = rnd := List.take_left' hr
  have h2 : (rnd ++ P.chachaEnc kd rnd (strToBytes s)).drop 12
      = P.chachaEnc kd rnd (strToBytes s) := List.drop_left' hr
  rw [h1, h2]
  rw [if_neg (by rw [hr]; omega)]
  rw [hC kd rnd (strToBytes s)]
  exact decodeUtf8E_strToBytes s

theorem roundtrip_hmac256 (P : Prims) (kd rnd : List Nat) (s : String)
    (hm : markerClean hmacMarker (strToBytes s)) :
    (encrypt_with_key P rnd s kd "HMAC256").bind
      (fun c => decrypt_with_key P c kd "HMAC256") = .ok s := by
  have he : encrypt_with_key P rnd s kd "HMAC256"
      = .ok (strToBytes s ++ hmacMarker ++ P.hmacSha256 kd (strToBytes s)) := rfl
  rw [he]
  show decrypt_with_key P _ kd _ = .ok s
  rw [decrypt_dispatch_hmac256]
  rw [markerClean_no_early hmacMarker (strToBytes s) _ hm]
  dsimp only
  rw [if_pos rfl]
  exact decodeUtf8E_strToBytes s

theorem roundtrip_hmac512 (P : Prims) (kd rnd : List Nat) (s : String)
    (hm : markerClean hmacMarker (strToBytes s)) :
    (encrypt_with_key P rnd s kd "HMAC512").bind
      (fun c => decrypt_with_key P c kd "HMAC512") = .ok s := by
  have he : encrypt_with_key P rnd s kd "HMAC512"
      = .ok (strToBytes s ++ hmacMarker ++ P.hmacSha512 kd (strToBytes s)) := rfl
  rw [he]
  show decrypt_with_key P _ kd _ = .ok s
  rw [decrypt_dispatch_hmac512]
  rw [markerClean_no_early hmacMarker (strToBytes s) _ hm]
  dsimp only
  rw [if_pos rfl]
  exact decodeUtf8E_strToBytes s

theorem roundtrip_rsa (P : Prims) (hR : RSASound P)
    (kt : String) (hkt : kt = "RSA2048" ∨ kt = "RSA4096" ∨ kt = "RSA")
    (kd rnd : List Nat) (s : String) (ct : List Nat)
    (henc : P.rsaEnc kd (strToBytes s) = some ct) :
    (encrypt_with_key P rnd s kd kt).bind (fun c => decrypt_with_key P c kd kt) = .ok s := by
  have he : encrypt_with_key P rnd s kd kt
      = match P.rsaEnc kd (strToBytes s) with
        | some c => .ok c
        | none => .error (.valueError "Encryption failed for OAEP") := by
    rcases hkt with rfl | rfl | rfl <;> rfl
  rw [he, henc]
  show decrypt_with_key P ct kd kt = .ok s
  rw [decrypt_dispatch_rsa P ct kd kt hkt]
  rw [hR kd (strToBytes s) ct henc]
  exact decodeUtf8E_strToBytes s

theorem roundtrip_ecc (P : Prims) (hE : ECDSACorrect P)
    (kt : String) (hkt : kt = "ECC256" ∨ kt = "ECC384")
    (kd rnd : List Nat) (s : String)
    (hm : markerClean eccMarker (strToBytes s)) :
    (encrypt_with_key P rnd s kd kt).bind (fun c => decrypt_with_key P c kd kt) = .ok s := by
  have he : encrypt_with_key P rnd s kd kt
      = .ok (strToBytes s ++ eccMarker ++ P.ecdsaSign kd (strToBytes s)) := by
    rcases hkt with rfl | rfl <;> rfl
  rw [he]
  show decrypt_with_key P _ kd kt = .ok s
  rw [decrypt_dispatch_ecc P _ kd kt hkt]
  rw [markerClean_no_early eccMarker (strToBytes s) _ hm]
  dsimp only
  rw [hE kd (strToBytes s), if_pos rfl]
  exact decodeUtf8E_strToBytes s

theorem roundtrip_ed (P : Prims) (hD : EdCorrect P)
    (kd rnd : List Nat) (s : String)
    (hm : markerClean edMarker (strToBytes s)) :
    (encrypt_with_key P rnd s kd "Ed25519").bind
      (fun c => decrypt_with_key P c kd "Ed25519") = .ok s := by
  have he : encrypt_with_key P rnd s kd "Ed25519"
      = .ok (strToBytes s ++ edMarker ++ P.edSign kd (strToBytes s)) := rfl
  rw [he]
  show decrypt_with_key P _ kd _ = .ok s
  rw [decrypt_dispatch_ed]
  rw [markerClean_no_early edMarker (strToBytes s) _ hm]
  dsimp only
  rw [hD kd (strToBytes s), if_pos rfl]
  exact decodeUtf8E_strToBytes s

/-- C1 (as stated, counterexample): for the supported tag `HMAC256`
there is a payload — `"x|HMAC|y"`, whose UTF-8 encoding contains the
`b'|HMAC|'` marker — on which `open(alg, key, seal(alg, key, P))` does
not return `P`: the first-occurrence marker split misparses the sealed
buffer and verification fails. -/
theorem seal_open_roundtrip_counterexample :
    (encrypt_with_key toyPrims [] "x|HMAC|y" [] "HMAC256").bind
        (fun c => decrypt_with_key toyPrims c [] "HMAC256") ≠ .ok "x|HMAC|y" ∧
    (encrypt_with_key toyPrims [] "x|HMAC|y" [] "HMAC256").bind
        (fun c => decrypt_with_key toyPrims c [] "HMAC256")
      = .error (.valueError "HMAC verification failed") := by
  have h : (encrypt_with_key toyPrims [] "x|HMAC|y" [] "HMAC256").bind
      (fun c => decrypt_with_key toyPrims c [] "HMAC256")
      = .error (.valueError "HMAC verification failed") := rfl
  refine ⟨?_, h⟩
  rw [h]
  exact fun hcon => Except.noConfusion hcon

/-- C1 (amended): the seal/open round trip holds for every supported
algorithm tag with the marker caveat: for the cipher tags (AES-GCM,
AES-CBC, ChaCha20-Poly1305) it holds for arbitrary payloads (given the
library primitives invert correctly and the drawn nonce/IV has the
drawn size); for the RSA tags it holds whenever OAEP accepts the
payload length (i.e. seal succeeds); for the MAC/signature tags
(HMAC256/512, ECC256/384, Ed25519) it holds provided the family's
marker byte sequence does not occur in the sealed buffer before the
appended marker (`markerClean`), which in particular excludes payloads
containing the marker. -/
theorem seal_open_roundtrip_amended (P : Prims)
    (hG : GCMSound P) (hT : GCMTagLen P) (hB : CBCSound P) (hC : ChaChaSound P)
    (hR : RSASound P) (hE : ECDSACorrect P) (hD : EdCorrect P) :
    (∀ kt, (kt = "AES128GCM" ∨ kt = "AES256GCM") → ∀ kd rnd s, rnd.length = 12 →
      (encrypt_with_key P rnd s kd kt).bind (fun c => decrypt_with_key P c kd kt) = .ok s) ∧
    (∀ kd rnd s, rnd.length = 16 →
      (encrypt_with_key P rnd s kd "AES256CBC").bind
        (fun c => decrypt_with_key P c kd "AES256CBC") = .ok s) ∧
    (∀ kd rnd s, rnd.length = 12 →
      (encrypt_with_key P rnd s kd "ChaCha20Poly1305").bind
        (fun c => decrypt_with_key P c kd "ChaCha20Poly1305") = .ok s) ∧
    (∀ kd rnd s, markerClean hmacMarker (strToBytes s) →
      (encrypt_with_key P rnd s kd "HMAC256").bind
        (fun c => decrypt_with_key P c kd "HMAC256") = .ok s ∧
      (encrypt_with_key P rnd s kd "HMAC512").bind
        (fun c => decrypt_with_key P c kd "HMAC512") = .ok s) ∧
    (∀ kt, (kt = "RSA2048" ∨ kt = "RSA4096" ∨ kt = "RSA") → ∀ kd rnd s ct,
      P.rsaEnc kd (strToBytes s) = some ct →
      (encrypt_with_key P rnd s kd kt).bind (fun c => decrypt_with_key P c kd kt) = .ok s) ∧
    (∀ kt, (kt = "ECC256" ∨ kt = "ECC384") → ∀ kd rnd s,
      markerClean eccMarker (strToBytes s) →
      (encrypt_with_key P rnd s kd kt).bind (fun c => decrypt_with_key P c kd kt) = .ok s) ∧
    (∀ kd rnd s, markerClean edMarker (strToBytes s) →
      (encrypt_with_key P rnd s kd "Ed25519").bind
        (fun c => decrypt_with_key P c kd "Ed25519") = .ok s) :=
  ⟨fun kt hkt kd rnd s hr => roundtrip_gcm P hG hT kt hkt kd rnd s hr,
    fun kd rnd s hr => roundtrip_cbc P hB kd rnd s hr,
    fun kd rnd s hr => roundtrip_chacha P hC kd rnd s hr,
    fun kd rnd s hm => ⟨roundtrip_hmac256 P kd rnd s hm, roundtrip_hmac512 P kd rnd s hm⟩,
    fun kt hkt kd rnd s ct henc => roundtrip_rsa P hR kt hkt kd rnd s ct henc,
    fun kt hkt kd rnd s hm => roundtrip_ecc P hE kt hkt kd rnd s hm,
    fun kd rnd s hm => roundtrip_ed P hD kd rnd s hm⟩

/-- C1 witness: the amended round trip evaluated on the toy primitive
bundle at concrete inputs, one per algorithm family. -/
theorem seal_open_roundtrip_amended_witness :
    (encrypt_with_key toyPrims (List.replicate 12 0) "hi" [] "AES256GCM").bind
        (fun c => decrypt_with_key toyPrims c [] "AES256GCM") = .ok "hi" ∧
    (encrypt_with_key toyPrims (List.replicate 16 0) "hi" [] "AES256CBC").bind
        (fun c => decrypt_with_key toyPrims c [] "AES256CBC") = .ok "hi" ∧
    (encrypt_with_key toyPrims (List.replicate 12 0) "hi" [] "ChaCha20Poly1305").bind
        (fun c => decrypt_with_key toyPrims c [] "ChaCha20Poly1305") = .ok "hi" ∧
    (encrypt_with_key toyPrims [] "hi" [] "HMAC256").bind
        (fun c => decrypt_with_key toyPrims c [] "HMAC256") = .ok "hi" ∧
    (encrypt_with_key toyPrims [] "hi" [] "RSA2048").bind
        (fun c => decrypt_with_key toyPrims c [] "RSA2048") = .ok "hi" ∧
    (encrypt_with_key toyPrims [] "hi" [] "ECC256").bind
        (fun c => decrypt_with_key toyPrims c [] "ECC256") = .ok "hi" ∧
    (encrypt_with_key toyPrims [] "hi" [] "Ed25519").bind
        (fun c => decrypt_with_key toyPrims c [] "Ed25519") = .ok "hi" := by
  have H := seal_open_roundtrip_amended toyPrims toyPrims_gcmSound toyPrims_gcmTagLen
    toyPrims_cbcSound toyPrims_chachaSound toyPrims_rsaSound toyPrims_ecdsaCorrect
    toyPrims_edCorrect
  refine ⟨H.1 "AES256GCM" (Or.inr rfl) [] _ "hi" (by simp),
    H.2.1 [] _ "hi" (by simp),
    H.2.2.1 [] _ "hi" (by simp),
    (H.2.2.2.1 [] [] "hi" (by unfold markerClean; decide)).1,
    H.2.2.2.2.1 "RSA2048" (Or.inl rfl) [] [] "hi" (strToBytes "hi") rfl,
    H.2.2.2.2.2.1 "ECC256" (Or.inl rfl) [] [] "hi" (by unfold markerClean; decide),
    H.2.2.2.2.2.2 [] [] "hi" (by unfold markerClean; decide)⟩

/-- C2: wrapping key material of any size under the master key and
unwrapping it returns the original, and the wrap output is exactly
`nonce(12 bytes) ++ tag(16 bytes) ++ ciphertext`. -/
theorem wrap_unwrap_roundtrip (P : Prims) (master nonce K : List Nat)
    (hG : GCMSound P) (hT : GCMTagLen P) (hn : nonce.length = 12) :
    decrypt_key_with_master P master (encrypt_key_with_master P master nonce K) = .ok K ∧
    encrypt_key_with_master P master nonce K
      = nonce ++ (P.gcmEnc (master.take 32) nonce K).2
          ++ (P.gcmEnc (master.take 32) nonce K).1 ∧
    nonce.length = 12 ∧ (P.gcmEnc (master.take 32) nonce K).2.length = 16 := by
  refine ⟨?_, rfl, hn, hT _ _ _⟩
  rw [decrypt_key_with_master.eq_def, encrypt_key_with_master]
  have h1 : ((nonce ++ (P.gcmEnc (master.take 32) nonce K).2)
      ++ (P.gcmEnc (master.take 32) nonce K).1).take 12 = nonce := by
    rw [List.append_assoc]
    exact List.take_left' hn
  have h2 : (((nonce ++ (P.gcmEnc (master.take 32) nonce K).2)
      ++ (P.gcmEnc (master.take 32) nonce K).1).drop 12).take 16
      = (P.gcmEnc (master.take 32) nonce K).2 := by
    rw [List.append_assoc, List.drop_left' hn]
    exact List.take_left' (hT (master.take 32) nonce K)
  have h3 : ((nonce ++ (P.gcmEnc (master.take 32) nonce K).2)
      ++ (P.gcmEnc (master.take 32) nonce K).1).drop 28
      = (P.gcmEnc (master.take 32) nonce K).1 := by
    refine List.drop_left' ?_
    rw [List.length_append, hn, hT (master.take 32) nonce K]
  rw [h1, h2, h3]
  rw [if_neg (by omega), if_neg (by rw [hT (master.take 32) nonce K]; omega)]
  rw [hG (master.take 32) nonce K]

/-- C2 witness: the wrap/unwrap round trip and the wire layout
evaluated on the toy primitive bundle at a concrete 16-byte key. -/
theorem wrap_unwrap_roundtrip_witness :
    decrypt_key_with_master toyPrims [] (encrypt_key_with_master toyPrims []
      (List.replicate 12 0) (List.replicate 16 1)) = .ok (List.replicate 16 1) ∧
    encrypt_key_with_master toyPrims [] (List.replicate 12 0) (List.replicate 16 1)
      = List.replicate 12 0
        ++ (toyPrims.gcmEnc ([].take 32) (List.replicate 12 0) (List.replicate 16 1)).2
        ++ (toyPrims.gcmEnc ([].take 32) (List.replicate 12 0) (List.replicate 16 1)).1 ∧
    (List.replicate 12 (0 : Nat)).length = 12 ∧
    (toyPrims.gcmEnc ([].take 32) (List.replicate 12 0) (List.replicate 16 1)).2.length = 16 :=
  wrap_unwrap_roundtrip toyPrims [] (List.replicate 12 0) (List.replicate 16 1)
    toyPrims_gcmSound toyPrims_gcmTagLen (by simp)

/-- C10: for every MAC/signature family tag there is an untampered
plaintext containing the family's marker (`"x|HMAC|y"`, `"x|ECC|y"`,
`"x|Ed25519|y"`) on which `open` raises a verification error on the
unmodified output of `seal`, because the sealed buffer is split at the
first marker occurrence.  The hypotheses record facts about the real
primitives: HMAC-SHA256/512 digests are 32/64 bytes, ECDSA signatures
are DER (verification rejects byte strings not starting with `0x30`),
and Ed25519 signatures are exactly 64 bytes. -/
theorem marker_split_breaks_untampered (P : Prims) (kd rnd : List Nat)
    (h2 : Hmac256Len P) (h5 : Hmac512Len P) (hDer : ECDSADer P) (hEd : EdSigLen P) :
    ((encrypt_with_key P rnd "x|HMAC|y" kd "HMAC256").bind
        (fun c => decrypt_with_key P c kd "HMAC256")
      = .error (.valueError "HMAC verification failed")) ∧
    ((encrypt_with_key P rnd "x|HMAC|y" kd "HMAC512").bind
        (fun c => decrypt_with_key P c kd "HMAC512")
      = .error (.valueError "HMAC verification failed")) ∧
    ((encrypt_with_key P rnd "x|ECC|y" kd "ECC256").bind
        (fun c => decrypt_with_key P c kd "ECC256")
      = .error (.valueError "ECC signature verification failed")) ∧
    ((encrypt_with_key P rnd "x|ECC|y" kd "ECC384").bind
        (fun c => decrypt_with_key P c kd "ECC384")
      = .error (.valueError "ECC signature verification failed")) ∧
    ((encrypt_with_key P rnd "x|Ed25519|y" kd "Ed25519").bind
        (fun c => decrypt_with_key P c kd "Ed25519")
      = .error (.valueError "Ed25519 signature verification failed")) := by
  refine ⟨?_, ?_, ?_, ?_, ?_⟩
  · have he : encrypt_with_key P rnd "x|HMAC|y" kd "HMAC256"
        = .ok (strToBytes "x|HMAC|y" ++ hmacMarker
            ++ P.hmacSha256 kd (strToBytes "x|HMAC|y")) := rfl
    rw [he]
    show decrypt_with_key P _ kd _ = _
    rw [decrypt_dispatch_hmac256]
    have hsplit : splitOnce hmacMarker (strToBytes "x|HMAC|y" ++ hmacMarker
        ++ P.hmacSha256 kd (strToBytes "x|HMAC|y"))
        = some ([120], 121 :: (hmacMarker ++ P.hmacSha256 kd (strToBytes "x|HMAC|y"))) := rfl
    rw [hsplit]
    dsimp only
    rw [if_neg]
    intro heq
    have hl := congrArg List.length heq
    simp only [List.length_cons, List.length_append] at hl
    rw [h2 kd (strToBytes "x|HMAC|y"), h2 kd [120]] at hl
    simp [hmacMarker] at hl
  · have he : encrypt_with_key P rnd "x|HMAC|y" kd "HMAC512"
        = .ok (strToBytes "x|HMAC|y" ++ hmacMarker
            ++ P.hmacSha512 kd (strToBytes "x|HMAC|y")) := rfl
    rw [he]
    show decrypt_with_key P _ kd _ = _
    rw [decrypt_dispatch_hmac512]
    have hsplit : splitOnce hmacMarker (strToBytes "x|HMAC|y" ++ hmacMarker
        ++ P.hmacSha512 kd (strToBytes "x|HMAC|y"))
        = some ([120], 121 :: (hmacMarker ++ P.hmacSha512 kd (strToBytes "x|HMAC|y"))) := rfl
    rw [hsplit]
    dsimp only
    rw [if_neg]
    intro heq
    have hl := congrArg List.length heq
    simp only [List.length_cons, List.length_append] at hl
    rw [h5 kd (strToBytes "x|HMAC|y"), h5 kd [120]] at hl
    simp [hmacMarker] at hl
  · have he : encrypt_with_key P rnd "x|ECC|y" kd "ECC256"
        = .ok (strToBytes "x|ECC|y" ++ eccMarker
            ++ P.ecdsaSign kd (strToBytes "x|ECC|y")) := rfl
    rw [he]
    show decrypt_with_key P _ kd _ = _
    rw [decrypt_dispatch_ecc P _ kd "ECC256" (Or.inl rfl)]
    have hsplit : splitOnce eccMarker (strToBytes "x|ECC|y" ++ eccMarker
        ++ P.ecdsaSign kd (strToBytes "x|ECC|y"))
        = some ([120], 121 :: (eccMarker ++ P.ecdsaSign kd (strToBytes "x|ECC|y"))) := rfl
    rw [hsplit]
    dsimp only
    rw [hDer kd _ [120] (by simp), if_neg (by simp)]
  · have he : encrypt_with_key P rnd "x|ECC|y" kd "ECC384"
        = .ok (strToBytes "x|ECC|y" ++ eccMarker
            ++ P.ecdsaSign kd (strToBytes "x|ECC|y")) := rfl
    rw [he]
    show decrypt_with_key P _ kd _ = _
    rw [decrypt_dispatch_ecc P _ kd "ECC384" (Or.inr rfl)]
    have hsplit : splitOnce eccMarker (strToBytes "x|ECC|y" ++ eccMarker
        ++ P.ecdsaSign kd (strToBytes "x|ECC|y"))
        = some ([120], 121 :: (eccMarker ++ P.ecdsaSign kd (strToBytes "x|ECC|y"))) := rfl
    rw [hsplit]
    dsimp only
    rw [hDer kd _ [120] (by simp), if_neg (by simp)]
  · have he : encrypt_with_key P rnd "x|Ed25519|y" kd "Ed25519"
        = .ok (strToBytes "x|Ed25519|y" ++ edMarker
            ++ P.edSign kd (strToBytes "x|Ed25519|y")) := rfl
    rw [he]
    show decrypt_with_key P _ kd _ = _
    rw [decrypt_dispatch_ed]
    have hsplit : splitOnce edMarker (strToBytes "x|Ed25519|y" ++ edMarker
        ++ P.edSign kd (strToBytes "x|Ed25519|y"))
        = some ([120], 121 :: (edMarker ++ P.edSign kd (strToBytes "x|Ed25519|y"))) := rfl
    rw [hsplit]
    dsimp only
    have hlen : (121 :: (edMarker ++ P.edSign kd (strToBytes "x|Ed25519|y"))).length ≠ 64 := by
      simp only [List.length_cons, List.length_append]
      rw [hEd.1 kd (strToBytes "x|Ed25519|y")]
      simp [edMarker]
    rw [hEd.2 kd _ [120] hlen, if_neg (by simp)]

/-- C10 witness: the marker-split failure evaluated on the toy
primitive bundle. -/
theorem marker_split_breaks_untampered_witness :
    ((encrypt_with_key toyPrims [] "x|HMAC|y" [] "HMAC256").bind
        (fun c => decrypt_with_key toyPrims c [] "HMAC256")
      = .error (.valueError "HMAC verification failed")) ∧
    ((encrypt_with_key toyPrims [] "x|Ed25519|y" [] "Ed25519").bind
        (fun c => decrypt_with_key toyPrims c [] "Ed25519")
      = .error (.valueError "Ed25519 signature verification failed")) :=
  ⟨(marker_split_breaks_untampered toyPrims [] [] toyPrims_hmac256Len toyPrims_hmac512Len
      toyPrims_ecdsaDer toyPrims_edSigLen).1,
    (marker_split_breaks_untampered toyPrims [] [] toyPrims_hmac256Len toyPrims_hmac512Len
      toyPrims_ecdsaDer toyPrims_edSigLen).2.2.2.2⟩

/-- C3 (as stated, counterexample): revoking an already-Revoked record
is not a no-op — the handler unconditionally re-stamps `revoked_at`, so
a record revoked at time 5 and revoked again at time 9 comes back with
`revoked_at = some 9`, not unchanged. -/
theorem revoke_key_restamps_counterexample :
    revoke_key (some (⟨1, "k1", "AES256GCM", [], 1, false, true, 1, 0, none, some 5⟩ :
        CryptoKey)) 9
      ≠ .ok (⟨1, "k1", "AES256GCM", [], 1, false, true, 1, 0, none, some 5⟩ : CryptoKey) ∧
    revoke_key (some (⟨1, "k1", "AES256GCM", [], 1, false, true, 1, 0, none, some 5⟩ :
        CryptoKey)) 9
      = .ok (⟨1, "k1", "AES256GCM", [], 1, false, true, 1, 0, none, some 9⟩ : CryptoKey) := by
  refine ⟨?_, rfl⟩
  intro h
  have h2 := Except.ok.inj h
  have h3 := congrArg CryptoKey.revoked_at h2
  simp at h3

/-- C3 (amended): revoke on an already-Revoked record succeeds (it is
not an error) and leaves the state flags terminal — `is_revoked` stays
`true` and `is_active` is (kept) `false` — but it re-stamps
`revoked_at` with the current time instead of leaving the revocation
timestamp untouched. -/
theorem revoke_key_on_revoked (k : CryptoKey) (now : Int) (h : k.is_revoked = true) :
    revoke_key (some k) now = .ok { k with is_active := false, revoked_at := some now } ∧
    ({ k with is_active := false, revoked_at := some now } : CryptoKey).is_revoked = true ∧
    ({ k with is_active := false, revoked_at := some now } : CryptoKey).revoked_at
      = some now := by
  rcases k with ⟨i, nm, kt, ek, kv, ia, ir, cb, ca, ra, rv⟩
  cases ir with
  | false => simp at h
  | true => exact ⟨rfl, rfl, rfl⟩

/-- C3 witness: the amended statement evaluated on a concrete revoked
record. -/
theorem revoke_key_on_revoked_witness :
    revoke_key (some (⟨1, "k1", "AES256GCM", [], 1, false, true, 1, 0, none, some 5⟩ :
        CryptoKey)) 9
      = .ok { (⟨1, "k1", "AES256GCM", [], 1, false, true, 1, 0, none, some 5⟩ : CryptoKey) with
          is_active := false, revoked_at := some 9 } ∧
    ({ (⟨1, "k1", "AES256GCM", [], 1, false, true, 1, 0, none, some 5⟩ : CryptoKey) with
        is_active := false, revoked_at := some 9 } : CryptoKey).is_revoked = true ∧
    ({ (⟨1, "k1", "AES256GCM", [], 1, false, true, 1, 0, none, some 5⟩ : CryptoKey) with
        is_active := false, revoked_at := some 9 } : CryptoKey).revoked_at = some 9 :=
  revoke_key_on_revoked _ 9 rfl

/-- C4: the access-for-use policy of the encrypt/decrypt handlers —
encrypt succeeds only on an active, non-revoked record and otherwise
fails with the 400 gate error before any cryptography runs; decrypt is
gated through exactly when the record is active or revoked, and a
deactivated-but-not-revoked record is refused with HTTP 400
`"Key is not available"`. -/
theorem access_policy (P : Prims) (master rnd : List Nat) (plaintext ctB64 : String) :
    (encrypt_data P master none rnd plaintext = .error ⟨404, "Key not found"⟩) ∧
    (decrypt_data P master none ctB64 = .error ⟨404, "Key not found"⟩) ∧
    (∀ k : CryptoKey, ¬(k.is_active = true ∧ k.is_revoked = false) →
      encrypt_data P master (some k) rnd plaintext
        = .error ⟨400, "Key is not active or has been revoked"⟩) ∧
    (∀ k : CryptoKey, k.is_active = true → k.is_revoked = false →
      encrypt_data P master (some k) rnd plaintext = encryptPipeline P master k rnd plaintext) ∧
    (∀ (k : CryptoKey) (r : String), encrypt_data P master (some k) rnd plaintext = .ok r →
      k.is_active = true ∧ k.is_revoked = false) ∧
    (∀ k : CryptoKey, k.is_active = false → k.is_revoked = false →
      decrypt_data P master (some k) ctB64 = .error ⟨400, "Key is not available"⟩) ∧
    (∀ k : CryptoKey, k.is_active = true ∨ k.is_revoked = true →
      decrypt_data P master (some k) ctB64 = decryptPipeline P master k ctB64) := by
  refine ⟨rfl, rfl, ?_, ?_, ?_, ?_, ?_⟩
  · intro k h
    rw [encrypt_data.eq_def]
    dsimp only
    rw [if_pos]
    rcases ha : k.is_active with _ | _ <;> rcases hr : k.is_revoked with _ | _ <;>
      simp_all
  · intro k ha hr
    rw [encrypt_data.eq_def]
    dsimp only
    rw [if_neg]
    rw [ha, hr]
    simp
  · intro k r h
    rcases ha : k.is_active with _ | _ <;> rcases hr : k.is_revoked with _ | _
    · rw [encrypt_data.eq_def] at h
      dsimp only at h
      rw [if_pos (by rw [ha]; simp)] at h
      exact Except.noConfusion h
    · rw [encrypt_data.eq_def] at h
      dsimp only at h
      rw [if_pos (by rw [ha]; simp)] at h
      exact Except.noConfusion h
    · exact ⟨rfl, rfl⟩
    · rw [encrypt_data.eq_def] at h
      dsimp only at h
      rw [if_pos (by rw [hr]; simp)] at h
      exact Except.noConfusion h
  · intro k ha hr
    rw [decrypt_data.eq_def]
    dsimp only
    rw [if_pos ⟨ha, hr⟩]
  · intro k h
    rw [decrypt_data.eq_def]
    dsimp only
    rw [if_neg]
    rcases h with h | h <;> simp [h]

/-- C4 witness: the policy evaluated on the toy primitive bundle with a
revoked record (encrypt refused, decrypt gated through) and a
deactivated-not-revoked record (decrypt refused). -/
theorem access_policy_witness :
    encrypt_data toyPrims [] (some (⟨1, "k1", "AES256GCM", [], 1, false, true, 1, 0, none,
        some 5⟩ : CryptoKey)) [] "hi"
      = .error ⟨400, "Key is not active or has been revoked"⟩ ∧
    decrypt_data toyPrims [] (some (⟨1, "k1", "AES256GCM", [], 1, false, true, 1, 0, none,
        some 5⟩ : CryptoKey)) "abc"
      = decryptPipeline toyPrims [] (⟨1, "k1", "AES256GCM", [], 1, false, true, 1, 0, none,
        some 5⟩ : CryptoKey) "abc" ∧
    decrypt_data toyPrims [] (some (⟨1, "k1", "AES256GCM", [], 1, false, false, 1, 0, none,
        none⟩ : CryptoKey)) "abc"
      = .error ⟨400, "Key is not available"⟩ ∧
    encrypt_data toyPrims [] (some (⟨1, "k1", "AES256GCM", [], 1, true, false, 1, 0, none,
        none⟩ : CryptoKey)) [] "hi"
      = encryptPipeline toyPrims [] (⟨1, "k1", "AES256GCM", [], 1, true, false, 1, 0, none,
        none⟩ : CryptoKey) [] "hi" :=
  ⟨(access_policy toyPrims [] [] "hi" "abc").2.2.1 _ (by simp),
    (access_policy toyPrims [] [] "hi" "abc").2.2.2.2.2.2 _ (Or.inr rfl),
    (access_policy toyPrims [] [] "hi" "abc").2.2.2.2.2.1 _ rfl rfl,
    (access_policy toyPrims [] [] "hi" "abc").2.2.2.1 _ rfl rfl⟩

/-- C5: rotate fails 404 (`NotFound`) when the key id is absent and 400
(`InvalidState`) when the record is Revoked; otherwise it increments
the version by exactly 1, replaces the wrapped key with a fresh wrap of
newly generated material, stamps `rotated_at`, and preserves `id` and
`key_type`; the background `rotate_key_if_needed` performs the same
update whenever the rotation predicate holds. -/
theorem rotate_key_spec (P : Prims) (master fresh wrapNonce : List Nat)
    (now rotation_days : Int) :
    (rotate_key P master none fresh wrapNonce now = .error ⟨404, "Key not found"⟩) ∧
    (∀ k : CryptoKey, k.is_revoked = true →
      rotate_key P master (some k) fresh wrapNonce now
        = .error ⟨400, "Cannot rotate a revoked key"⟩) ∧
    (∀ k : CryptoKey, k.is_revoked = false →
      ∃ k', rotate_key P master (some k) fresh wrapNonce now = .ok k' ∧
        k'.key_version = k.key_version + 1 ∧
        k'.encrypted_key = encrypt_key_with_master P master wrapNonce fresh ∧
        k'.rotated_at = some now ∧ k'.id = k.id ∧ k'.key_type = k.key_type ∧
        k'.is_active = k.is_active ∧ k'.is_revoked = false) ∧
    (∀ k : CryptoKey, should_rotate_key k now rotation_days = true →
      rotate_key_if_needed P master k fresh wrapNonce now rotation_days
        = (true, { k with
            encrypted_key := encrypt_key_with_master P master wrapNonce fresh,
            key_version := k.key_version + 1,
            rotated_at := some now })) := by
  refine ⟨rfl, ?_, ?_, ?_⟩
  · intro k h
    rw [rotate_key.eq_def]
    dsimp only
    rw [if_pos h]
  · intro k h
    refine ⟨{ k with
        encrypted_key := encrypt_key_with_master P master wrapNonce fresh,
        key_version := k.key_version + 1,
        rotated_at := some now }, ?_, rfl, rfl, rfl, rfl, rfl, rfl, h⟩
    rw [rotate_key.eq_def]
    dsimp only
    rw [if_neg (by rw [h]; simp)]
  · intro k h
    rw [rotate_key_if_needed, if_neg (by rw [h]; simp)]

/-- C5 witness: rotation evaluated on the toy primitive bundle — a
revoked record is refused, an active record gets version+1, the fresh
wrap, a stamped `rotated_at`, and unchanged id/algorithm. -/
theorem rotate_key_spec_witness :
    rotate_key toyPrims [] (some (⟨1, "k1", "AES256GCM", [], 1, false, true, 1, 0, none,
        some 5⟩ : CryptoKey)) [7] [0] 9
      = .error ⟨400, "Cannot rotate a revoked key"⟩ ∧
    (∃ k', rotate_key toyPrims [] (some (⟨2, "k2", "AES256GCM", [3], 4, true, false, 1, 0,
        none, none⟩ : CryptoKey)) [7] [0] 9 = .ok k' ∧
      k'.key_version = 4 + 1 ∧
      k'.encrypted_key = encrypt_key_with_master toyPrims [] [0] [7] ∧
      k'.rotated_at = some 9 ∧ k'.id = 2 ∧ k'.key_type = "AES256GCM" ∧
      k'.is_active = true ∧ k'.is_revoked = false) :=
  ⟨(rotate_key_spec toyPrims [] [7] [0] 9 0).2.1 _ rfl,
    (rotate_key_spec toyPrims [] [7] [0] 9 0).2.2.1 _ rfl⟩

/-- C6 (as stated, counterexample): an active, unrevoked record whose
age since creation is exactly the maximum (`now - created_at = 90`
days with `max_age = 90`) is *not* reported due — the source compares
with a strict `<`, so the claimed `>=` semantics fails at equality. -/
theorem should_rotate_key_exact_age_counterexample :
    should_rotate_key (⟨1, "k1", "AES256GCM", [], 1, true, false, 1, 0, none, none⟩ :
        CryptoKey) 90 90 = false ∧
    (⟨1, "k1", "AES256GCM", [], 1, true, false, 1, 0, none, none⟩ : CryptoKey).is_active
      = true ∧
    (⟨1, "k1", "AES256GCM", [], 1, true, false, 1, 0, none, none⟩ : CryptoKey).is_revoked
      = false ∧
    (90 : Int) -
      ((⟨1, "k1", "AES256GCM", [], 1, true, false, 1, 0, none, none⟩ :
        CryptoKey).rotated_at.getD 0) ≥ 90 := by
  exact ⟨by decide, rfl, rfl, by decide⟩

/-- C6 (amended): the rotation-due predicate is pure and returns `true`
iff the record is active and not revoked and `now` minus
(`rotated_at` if set, else `created_at`) is *strictly greater* than
`max_age`; at exact equality it returns `false`. -/
theorem should_rotate_key_iff (k : CryptoKey) (now rotation_days : Int) :
    should_rotate_key k now rotation_days = true ↔
      (k.is_revoked = false ∧ k.is_active = true ∧
        now - (k.rotated_at.getD k.created_at) > rotation_days) := by
  rcases hrev : k.is_revoked with _ | _ <;> rcases hact : k.is_active with _ | _
  all_goals simp [should_rotate_key, hrev, hact]
  all_goals omega

/-- C7: verify-of-sign always succeeds — `log_audit` signs the
canonical sorted-key JSON encoding of the nine audit fields with
HMAC-SHA256 (abstract `h256`) under the audit secret and stores the hex
tag, and `verify_audit_log` recomputes the same canonical encoding and
compares, so it returns `true` on any record `log_audit` produced. -/
theorem verify_audit_log_of_log_audit (h256 : List Nat → List Nat → List Nat)
    (secret : String) (user_id : Option Int) (action resource_type : String)
    (resource_id : Option String) (ip_address status : String)
    (details user_agent : Option String) (timestamp : String) :
    verify_audit_log h256 secret
      (log_audit h256 secret user_id action resource_type resource_id ip_address status
        details user_agent timestamp) = true := by
  simp [verify_audit_log, log_audit, logDataOfLog, logDataOfFields]

/-- C9 (as stated, counterexample): a missing audit secret does not
cause any startup error — `AUDIT_SECRET` silently falls back to the
hard-coded default string, and the process serves requests with that
defaulted secret. -/
theorem audit_secret_defaults_counterexample :
    auditSecretInit none = "audit-secret-key-change-this" := rfl

/-- C9 (amended): a missing (or empty, or too-short) master secret
raises a fatal `ValueError` at import time — in particular any accepted
master key has at least 32 bytes — but the audit secret is never
validated: when missing it silently defaults to a hard-coded string
instead of failing. -/
theorem secrets_startup (s : String) :
    (masterKeyInit none
      = .error (.valueError "MASTER_KEY environment variable must be set")) ∧
    (masterKeyInit (some "")
      = .error (.valueError "MASTER_KEY environment variable must be set")) ∧
    (∀ mk, masterKeyInit (some s) = .ok mk → 32 ≤ mk.length) ∧
    (auditSecretInit none = "audit-secret-key-change-this") := by
  refine ⟨rfl, rfl, ?_, rfl⟩
  intro mk h
  rw [masterKeyInit.eq_def] at h
  dsimp only at h
  by_cases hs : s = ""
  · rw [if_pos hs] at h
    exact Except.noConfusion h
  · rw [if_neg hs] at h
    rcases hfh : bytesFromHex s with _ | b <;> rw [hfh] at h <;> dsimp only at h
    · by_cases hb : ((strToBytes s).take 32).length < 32
      · rw [if_pos hb] at h
        exact Except.noConfusion h
      · rw [if_neg hb] at h
        have h2 := Except.ok.inj h
        rw [← h2]
        omega
    · by_cases hb : b.length < 32
      · rw [if_pos hb] at h
        exact Except.noConfusion h
      · rw [if_neg hb] at h
        have h2 := Except.ok.inj h
        rw [← h2]
        omega

/-- C9 witness: the startup checks evaluated at the all-zero 64-char
hex master key (accepted, 32 bytes). -/
theorem secrets_startup_witness :
    32 ≤ (List.replicate 32 (0 : Nat)).length ∧
    masterKeyInit (some "0000000000000000000000000000000000000000000000000000000000000000")
      = .ok (List.replicate 32 0) :=
  ⟨(secrets_startup
      "0000000000000000000000000000000000000000000000000000000000000000").2.2.1
      (List.replicate 32 0) (by rfl),
    by rfl⟩

/-- C8 (as stated, counterexample): unwrap on a buffer shorter than 28
bytes (here the empty buffer) fails with Python's generic built-in
`ValueError` — raised by the library's GCM parameter validation, not by
any `IntegrityError`/`PaddingError`/`UnsupportedAlgorithm`/
`MalformedInput` class; no such typed error class exists in the
repository. -/
theorem unwrap_generic_error_counterexample :
    decrypt_key_with_master toyPrims (List.replicate 32 0) []
      = .error (.valueError "Invalid IV size for GCM") ∧
    specTypedError (.valueError "Invalid IV size for GCM") = false := ⟨rfl, rfl⟩

/-- C8 (amended): unwrap failures are typed only as Python exceptions —
a buffer shorter than 8 bytes fails with `ValueError` from GCM IV
validation, one of 8..27 bytes fails with `ValueError` from GCM tag
validation (so every buffer shorter than 28 bytes fails with a generic
`ValueError`, not an `IntegrityError`), a well-formed buffer whose tag
does not authenticate fails with the library's `InvalidTag`, and no
failure of unwrap belongs to the spec's typed taxonomy. -/
theorem unwrap_failure_modes (P : Prims) (master data : List Nat) :
    (data.length < 8 → decrypt_key_with_master P master data
        = .error (.valueError "Invalid IV size for GCM")) ∧
    (8 ≤ data.length → data.length < 28 → decrypt_key_with_master P master data
        = .error (.valueError "Authentication tag must be 16 bytes or longer")) ∧
    (28 ≤ data.length →
      P.gcmDec (master.take 32) (data.take 12) ((data.drop 12).take 16) (data.drop 28)
          = none →
      decrypt_key_with_master P master data = .error .invalidTag) ∧
    (∀ e, decrypt_key_with_master P master data = .error e → specTypedError e = false) := by
  refine ⟨?_, ?_, ?_, fun e _ => rfl⟩
  · intro h
    rw [decrypt_key_with_master.eq_def]
    rw [if_pos (by simp only [List.length_take]; omega)]
  · intro h8 h28
    rw [decrypt_key_with_master.eq_def]
    rw [if_neg (by simp only [List.length_take]; omega)]
    rw [if_pos (by simp only [List.length_take, List.length_drop]; omega)]
  · intro h28 hdec
    rw [decrypt_key_with_master.eq_def]
    rw [if_neg (by simp only [List.length_take]; omega)]
    rw [if_neg (by simp only [List.length_take, List.length_drop]; omega)]
    rw [hdec]

/-- C8 witness: the three unwrap failure modes evaluated on the toy
primitive bundle at concrete buffers of lengths 0, 20 and 28. -/
theorem unwrap_failure_modes_witness :
    (decrypt_key_with_master toyPrims [] []
      = .error (.valueError "Invalid IV size for GCM")) ∧
    (decrypt_key_with_master toyPrims [] (List.replicate 20 0)
      = .error (.valueError "Authentication tag must be 16 bytes or longer")) ∧
    (decrypt_key_with_master toyPrims [] (List.replicate 12 0 ++ List.replicate 16 1)
      = .error .invalidTag) :=
  ⟨(unwrap_failure_modes toyPrims [] []).1 (by decide),
    (unwrap_failure_modes toyPrims [] (List.replicate 20 0)).2.1 (by decide) (by decide),
    (unwrap_failure_modes toyPrims [] (List.replicate 12 0 ++ List.replicate 16 1)).2.2.1
      (by decide) (by decide)⟩

end KMS
